import Mathlib

/-!
Verification of the minijinja value/object subsystem: a shallow embedding of
`src/minijinja/src/value/object.rs` (the `Object` trait, its default method
bodies, and the forwarding implementation for `std::sync::Arc<T>`) and of the
CLI example `src/examples/expr.rs`, together with theorems settling the
specification's claims about them.
-/

namespace Minijinja

/-- Modelled from the spec: the `Value` type (`crate::value::Value`) is not in
the provided sources; the spec describes it as a closed tagged union of
"absence, boolean, integer, float, string, byte sequence, sequence of Value,
ordered mapping of Value to Value, and an opaque handle to a dynamic Object".
The claims settled here use `Value` only as an opaque payload, so the float
and object-handle variants (which have no faithful shallow form) are left to
the listed constructors; `map` keeps insertion order as the spec requires. -/
inductive Value where
  | undefined : Value
  | bool (b : Bool) : Value
  | int (i : Int) : Value
  | str (s : String) : Value
  | bytes (bs : List UInt8) : Value
  | seq (items : List Value) : Value
  | map (entries : List (Value × Value)) : Value

/-- Modelled from the spec: the execution `State` (`crate::vm::State`) is not
in the provided sources; the spec describes it as an opaque per-call context
handle "carrying interpreter-side information (current template identity,
scope chain)", never mutated by the object. It is opaque to every operation
modelled here. -/
structure State where
  templateName : String
deriving Repr, DecidableEq

/-- Modelled from the spec: the error kinds (`crate::error::ErrorKind`) are
not in the provided sources; the spec names `InvalidOperation` plus kinds
owned by the excluded compiler/evaluator layers (a compile-time kind for
malformed source, an undefined-variable kind). -/
inductive ErrorKind where
  | invalidOperation : ErrorKind
  | parseFailure : ErrorKind
  | undefinedError : ErrorKind
deriving Repr, DecidableEq

/-- Modelled from the spec: the `Error` type (`crate::error::Error`) is not in
the provided sources; the spec describes it as "a value carrying an ErrorKind
... plus a human-readable message". -/
structure Error where
  kind : ErrorKind
  msg : String
deriving Repr, DecidableEq

/-- `Error::new(kind, detail)` as invoked by the trait's default bodies. -/
def Error.new (kind : ErrorKind) (msg : String) : Error := ⟨kind, msg⟩

/-- The `fmt::Display` supertrait bound: a total conversion to a display
string, required of every `Object`. -/
class Display (α : Type) where
  fmt : α → String

/-- The `fmt::Debug` supertrait bound: a total conversion to a debug
representation, required of every `Object`. -/
class Debug (α : Type) where
  fmt : α → String

/-- Default body of `Object::get_attr` (object.rs lines 39-42):
`let _name = name; None`. -/
def default_get_attr (name : String) : Option Value :=
  let _name := name
  none

/-- Default body of `Object::attributes` (object.rs lines 50-52):
`Box::new(None.into_iter())`, the empty iterator, embedded as the empty
list of attribute names. -/
def default_attributes : List String :=
  []

/-- Default body of `Object::call_method` (object.rs lines 61-68): ignores the
state and the arguments and fails with `InvalidOperation` naming the unknown
method. -/
def default_call_method (state : State) (name : String) (args : List Value) :
    Except Error Value :=
  let _state := state
  let _args := args
  Except.error (Error.new ErrorKind.invalidOperation
    ("object has no method named " ++ name))

/-- Default body of `Object::call` (object.rs lines 77-84): ignores the state
and the arguments and fails with `InvalidOperation`, "tried to call non
callable object". -/
def default_call (state : State) (args : List Value) : Except Error Value :=
  let _state := state
  let _args := args
  Except.error (Error.new ErrorKind.invalidOperation
    "tried to call non callable object")

/-- The `Object` trait (object.rs line 25):
`pub trait Object: fmt::Display + fmt::Debug + Any + Sync + Send` with four
methods, each with an engine-provided default. The `Display`/`Debug`
supertraits are the two classes above; `Any`, `Sync` and `Send` are Rust
marker traits with no computational content in a shallow embedding. An
iterator of attribute names is embedded as a `List String`, a fallible
`Result<Value, Error>` as `Except Error Value`. -/
class Object (α : Type) extends Display α, Debug α where
  get_attr : α → String → Option Value :=
    fun _ name => default_get_attr name
  attributes : α → List String :=
    fun _ => default_attributes
  call_method : α → State → String → List Value → Except Error Value :=
    fun _ state name args => default_call_method state name args
  call : α → State → List Value → Except Error Value :=
    fun _ state args => default_call state args

/-- `std::sync::Arc<T>`: a shared-ownership wrapper. Reference counting is
memory management with no observable effect on the four operations, so the
wrapper is embedded as a plain wrapper around its pointee. -/
structure Arc (α : Type) where
  inner : α
deriving Repr, DecidableEq

/-- `impl<T: Display> Display for Arc<T>` (std): forwards to the pointee. -/
instance instDisplayArc {α : Type} [Display α] : Display (Arc α) where
  fmt a := Display.fmt a.inner

/-- `impl<T: Debug> Debug for Arc<T>` (std): forwards to the pointee. -/
instance instDebugArc {α : Type} [Debug α] : Debug (Arc α) where
  fmt a := Debug.fmt a.inner

/-- `impl<T: Object> Object for std::sync::Arc<T>` (object.rs lines 87-103):
each of the four operations forwards unchanged to the wrapped `T`. -/
instance instObjectArc {α : Type} [Object α] : Object (Arc α) where
  get_attr a name := Object.get_attr a.inner name
  attributes a := Object.attributes a.inner
  call_method a state name args := Object.call_method a.inner state name args
  call a state args := Object.call a.inner state args

/-- `n` nested shared-ownership layers around `α`: `ArcTower α 0 = α`,
`ArcTower α (n+1) = Arc (ArcTower α n)`. The spec's "wrapped in one or more
shared-ownership layers" is `ArcTower α n` with `0 < n`. -/
def ArcTower (α : Type) : Nat → Type
  | 0 => α
  | n + 1 => Arc (ArcTower α n)

/-- The underlying object at the bottom of a tower of wrappers. -/
def ArcTower.base {α : Type} : (n : Nat) → ArcTower α n → α
  | 0, a => a
  | n + 1, a => ArcTower.base n (Arc.inner a)

/-- The `Object` implementation of a tower of wrappers, obtained by applying
the source's `impl<T: Object> Object for Arc<T>` once per layer. -/
def ArcTower.objInst {α : Type} [inst : Object α] :
    (n : Nat) → Object (ArcTower α n)
  | 0 => inst
  | n + 1 => @instObjectArc (ArcTower α n) (ArcTower.objInst n)

/-- `get_attr` invoked through the outermost wrapper of an `n`-layer tower. -/
def towerGetAttr {α : Type} [Object α] (n : Nat) (t : ArcTower α n)
    (name : String) : Option Value :=
  @Object.get_attr _ (ArcTower.objInst n) t name

/-- `attributes` invoked through the outermost wrapper of an `n`-layer
tower. -/
def towerAttributes {α : Type} [Object α] (n : Nat) (t : ArcTower α n) :
    List String :=
  @Object.attributes _ (ArcTower.objInst n) t

/-- `call_method` invoked through the outermost wrapper of an `n`-layer
tower. -/
def towerCallMethod {α : Type} [Object α] (n : Nat) (t : ArcTower α n)
    (state : State) (name : String) (args : List Value) :
    Except Error Value :=
  @Object.call_method _ (ArcTower.objInst n) t state name args

/-- `call` invoked through the outermost wrapper of an `n`-layer tower. -/
def towerCall {α : Type} [Object α] (n : Nat) (t : ArcTower α n)
    (state : State) (args : List Value) : Except Error Value :=
  @Object.call _ (ArcTower.objInst n) t state args

/-- The observable outcome of a run of the example process: its exit status,
the lines it printed to stdout, and the lines it printed to stderr. -/
structure ProcessOutcome where
  exitCode : Nat
  stdoutLines : List String
  stderrLines : List String
deriving Repr, DecidableEq

/-- The usage message of src/examples/expr.rs line 11. -/
def usageMessage : String := "usage: expr <expression>"

/-- The outcome of `.unwrap()` on an `Err` value: the panic machinery reports
the error on stderr and aborts the process with the non-zero panic exit
status 101, having printed nothing to stdout. -/
def panicOutcome (msg : String) : ProcessOutcome :=
  { exitCode := 101
    stdoutLines := []
    stderrLines := ["called unwrap on an Err value: " ++ msg] }

/-- Insertion into a `BTreeMap<String, String>` viewed as a key-sorted
association list: keys stay strictly increasing and a repeated key replaces
the stored value. -/
def btreeInsert (key val : String) :
    List (String × String) → List (String × String)
  | [] => [(key, val)]
  | (k, v) :: rest =>
    if key < k then (key, val) :: (k, v) :: rest
    else if key = k then (key, val) :: rest
    else (k, v) :: btreeInsert key val rest

/-- `collect::<BTreeMap<_, _>>()` over string pairs (expr.rs line 18):
inserts every pair in order into an initially empty map. -/
def collectBTreeMap (pairs : List (String × String)) :
    List (String × String) :=
  pairs.foldl (fun m p => btreeInsert p.1 p.2 m) []

/-- The `env` dict bound into the context: the process's environment
variables collected into a `BTreeMap`, then wrapped as a map `Value` with
string keys and string values. -/
def envDict (envVars : List (String × String)) : Value :=
  Value.map ((collectBTreeMap envVars).map
    (fun p => (Value.str p.1, Value.str p.2)))

/-- `.unwrap()` on a `Result` at process level: on `Err` the panic machinery
takes over and the rest of `main` never runs; on `Ok` execution continues
with the unwrapped value. -/
def runUnwrapped {χ : Type} (r : Except Error χ)
    (k : χ → ProcessOutcome) : ProcessOutcome :=
  match r with
  | Except.error e => panicOutcome e.msg
  | Except.ok x => k x

/-- `fn main()` of src/examples/expr.rs (lines 8-22), as a function of the
process's argument list (`env::args()`, whose first element is the program
name) and its environment variables (`env::vars()`). Modelled from the spec:
the excluded collaborators — `Environment::new().compile_expression` (compile
an expression string into a reusable compiled form, or fail), `eval`
(evaluate the compiled form against a name-to-Value context, or fail) and
`serde_json::to_string_pretty` (externalize a result Value, total because the
spec guarantees every Value variant is representable) — are not in the
provided sources and are taken as parameters, with the compiled-expression
type `χ` opaque. The body follows the source line by line: argument-count
check, compile with `.unwrap()`, context with the single entry `"env"`,
evaluate with `.unwrap()`, serialize and print. -/
def exprMain {χ : Type}
    (compile_expression : String → Except Error χ)
    (eval : χ → List (String × Value) → Except Error Value)
    (to_string_pretty : Value → String)
    (args : List String) (envVars : List (String × String)) :
    ProcessOutcome :=
  if args.length ≠ 2 then
    { exitCode := 1, stdoutLines := [], stderrLines := [usageMessage] }
  else
    runUnwrapped (compile_expression (args.getD 1 "")) fun expr =>
      let ctx := [("env", envDict envVars)]
      runUnwrapped (eval expr ctx) fun result =>
        { exitCode := 0
          stdoutLines := [to_string_pretty result]
          stderrLines := [] }

/-- `.unwrap()` on an `Ok` continues with the value. -/
theorem runUnwrapped_ok {χ : Type} (x : χ) (k : χ → ProcessOutcome) :
    runUnwrapped (Except.ok x) k = k x := rfl

/-- `.unwrap()` on an `Err` panics. -/
theorem runUnwrapped_error {χ : Type} (e : Error)
    (k : χ → ProcessOutcome) :
    runUnwrapped (Except.error e) k = panicOutcome e.msg := rfl

/-- C1: wrapping transparency. For every type with an `Object` implementation
and every object wrapped in one or more shared-ownership (`Arc`) layers,
invoking any of the four protocol operations (`get_attr`, `attributes`,
`call_method`, `call`) through the outermost wrapper yields a result
identical to invoking that operation directly on the underlying object, for
every attribute name, method name, execution state and argument list. -/
theorem arc_wrapping_transparent {α : Type} [Object α] (n : Nat)
    (t : ArcTower α (n + 1)) (attr mname : String) (s : State)
    (args : List Value) :
    towerGetAttr (n + 1) t attr =
        Object.get_attr (ArcTower.base (n + 1) t) attr ∧
    towerAttributes (n + 1) t =
        Object.attributes (ArcTower.base (n + 1) t) ∧
    towerCallMethod (n + 1) t s mname args =
        Object.call_method (ArcTower.base (n + 1) t) s mname args ∧
    towerCall (n + 1) t s args =
        Object.call (ArcTower.base (n + 1) t) s args := by
  induction n with
  | zero => exact ⟨rfl, rfl, rfl, rfl⟩
  | succ m ih =>
    have h := ih (Arc.inner t)
    exact ⟨h.1, h.2.1, h.2.2.1, h.2.2.2⟩

/-- C2: `get_attr` never fails. Its result type is `Option Value` — every
result is either a `Value` or absence, an error is not expressible and no
execution-state handle is received — and the engine-provided default
implementation returns absence for every attribute name. -/
theorem get_attr_never_fails {α : Type} [Object α] (a : α) (name : String) :
    default_get_attr name = none ∧
    (Object.get_attr a name = none ∨
      ∃ v, Object.get_attr a name = some v) := by
  refine ⟨rfl, ?_⟩
  cases h : Object.get_attr a name with
  | none => exact Or.inl rfl
  | some v => exact Or.inr ⟨v, rfl⟩

/-- C3: for every execution state, method name and argument list, the
engine-provided default `call_method` fails with an error of kind
`InvalidOperation` whose message identifies the unknown method name. -/
theorem default_call_method_unknown (state : State) (name : String)
    (args : List Value) :
    default_call_method state name args =
      Except.error ⟨ErrorKind.invalidOperation,
        "object has no method named " ++ name⟩ := rfl

/-- C4: for every execution state and argument list, the engine-provided
default `call` fails with an error of kind `InvalidOperation` stating that
the object is not callable; it never returns a success value. -/
theorem default_call_not_callable (state : State) (args : List Value) :
    default_call state args =
      Except.error ⟨ErrorKind.invalidOperation,
        "tried to call non callable object"⟩ ∧
    ∀ v, default_call state args ≠ Except.ok v := by
  exact ⟨rfl, fun v h => nomatch h⟩

/-- C5: the engine-provided default `attributes` yields the empty enumeration
of attribute names — a finite, restartable, read-only list with zero
elements — and never fails. -/
theorem default_attributes_empty :
    default_attributes = ([] : List String) ∧
    default_attributes.length = 0 := ⟨rfl, rfl⟩

/-- C8: the protocol's supertrait bounds require every `Object`
implementation to provide a display-string conversion and a debug
representation, so converting any object to a display or debug string is
total and always available. -/
theorem object_display_debug_total {α : Type} [Object α] (a : α) :
    ∃ d g : String, Display.fmt a = d ∧ Debug.fmt a = g :=
  ⟨Display.fmt a, Debug.fmt a, rfl, rfl⟩

/-- C9: the default `call_method` and `call` are deterministic and
independent of the execution state and the argument list: any two states and
argument lists produce identical errors, of kind `InvalidOperation` with
message exactly "object has no method named {name}" for `call_method` and
exactly "tried to call non callable object" for `call`. -/
theorem default_invocations_state_independent (s1 s2 : State) (name : String)
    (a1 a2 : List Value) :
    default_call_method s1 name a1 = default_call_method s2 name a2 ∧
    default_call_method s1 name a1 =
      Except.error ⟨ErrorKind.invalidOperation,
        "object has no method named " ++ name⟩ ∧
    default_call s1 a1 = default_call s2 a2 ∧
    default_call s1 a1 =
      Except.error ⟨ErrorKind.invalidOperation,
        "tried to call non callable object"⟩ :=
  ⟨rfl, rfl, rfl, rfl⟩

/-- C6: the CLI embedding contract of the example program. With an argument
count other than exactly one expression it produces the usage outcome with
exit status 1; with a compile or evaluation failure it panics (non-zero exit
status, the error reported on stderr, nothing on stdout); with a successful
evaluation it prints exactly the serialized result with exit status 0 and
the context it evaluates against is the single entry `"env"` bound to the
environment-variable dict; and whenever the exit status is non-zero, stdout
is empty — no partial result is ever produced. -/
theorem expr_main_contract {χ : Type}
    (compile_expression : String → Except Error χ)
    (eval : χ → List (String × Value) → Except Error Value)
    (to_string_pretty : Value → String)
    (args : List String) (envVars : List (String × String)) :
    (args.length ≠ 2 →
      exprMain compile_expression eval to_string_pretty args envVars =
        { exitCode := 1, stdoutLines := [], stderrLines := [usageMessage] }) ∧
    (∀ e, args.length = 2 →
      compile_expression (args.getD 1 "") = Except.error e →
      exprMain compile_expression eval to_string_pretty args envVars =
        panicOutcome e.msg) ∧
    (∀ ex e, args.length = 2 →
      compile_expression (args.getD 1 "") = Except.ok ex →
      eval ex [("env", envDict envVars)] = Except.error e →
      exprMain compile_expression eval to_string_pretty args envVars =
        panicOutcome e.msg) ∧
    (∀ ex v, args.length = 2 →
      compile_expression (args.getD 1 "") = Except.ok ex →
      eval ex [("env", envDict envVars)] = Except.ok v →
      exprMain compile_expression eval to_string_pretty args envVars =
        { exitCode := 0, stdoutLines := [to_string_pretty v]
          stderrLines := [] }) ∧
    ((exprMain compile_expression eval to_string_pretty args
        envVars).exitCode ≠ 0 →
      (exprMain compile_expression eval to_string_pretty args
        envVars).stdoutLines = []) := by
  refine ⟨?_, ?_, ?_, ?_, ?_⟩
  · intro h
    unfold exprMain
    rw [if_pos h]
  · intro e hlen hc
    unfold exprMain
    rw [if_neg (by omega), hc, runUnwrapped_error]
  · intro ex e hlen hc he
    unfold exprMain
    rw [if_neg (by omega), hc, runUnwrapped_ok]
    simp only [he, runUnwrapped_error]
  · intro ex v hlen hc hv
    unfold exprMain
    rw [if_neg (by omega), hc, runUnwrapped_ok]
    simp only [hv, runUnwrapped_ok]
  · intro hne
    by_cases hlen : args.length = 2
    · unfold exprMain at hne ⊢
      rw [if_neg (by omega)] at hne ⊢
      revert hne
      cases compile_expression (args.getD 1 "") with
      | error e => intro hne; rfl
      | ok ex =>
        intro hne
        simp only [runUnwrapped_ok] at hne ⊢
        revert hne
        cases eval ex [("env", envDict envVars)] with
        | error e => intro hne; rfl
        | ok v => intro hne; exact absurd rfl hne
    · unfold exprMain
      rw [if_pos hlen]

/-- Witness for C6: the successful-evaluation conjunct at a concrete
collaborator triple, argument list and environment. -/
theorem expr_main_contract_witness :
    exprMain (fun _ => (Except.ok 0 : Except Error Nat))
      (fun _ _ => Except.ok (Value.int 2)) (fun _ => "2")
      ["expr", "1 + 1"] [] =
      { exitCode := 0, stdoutLines := ["2"], stderrLines := [] } :=
  (expr_main_contract (fun _ => (Except.ok 0 : Except Error Nat))
    (fun _ _ => Except.ok (Value.int 2)) (fun _ => "2")
    ["expr", "1 + 1"] []).2.2.2.1 0 (Value.int 2) rfl rfl rfl

/-- C10: on a usage error (argument count different from exactly one
expression argument) the example exits with status exactly 1, writes only
the usage message "usage: expr <expression>" to stderr and nothing to
stdout; the outcome is the same for every compile function, evaluation
function, serializer and environment, so no compilation, environment-variable
reading or evaluation takes part in it. -/
theorem usage_error_outcome {χ : Type}
    (compile_expression : String → Except Error χ)
    (eval : χ → List (String × Value) → Except Error Value)
    (to_string_pretty : Value → String)
    (args : List String) (envVars : List (String × String))
    (h : args.length ≠ 2) :
    exprMain compile_expression eval to_string_pretty args envVars =
      { exitCode := 1, stdoutLines := [], stderrLines := [usageMessage] } := by
  simp [exprMain, h]

/-- Witness for C10: a run with no expression argument at a concrete
collaborator triple and environment. -/
theorem usage_error_outcome_witness :
    exprMain (fun _ => (Except.error ⟨ErrorKind.parseFailure, "x"⟩ :
        Except Error Nat))
      (fun _ _ => Except.ok Value.undefined) (fun _ => "")
      ["expr"] [("HOME", "/root")] =
      { exitCode := 1, stdoutLines := [], stderrLines := [usageMessage] } :=
  usage_error_outcome _ _ _ _ _ (by decide)

end Minijinja
